import Mathlib

/-!
Verification of the mac-commondX core against its specification.

The Python source is shallowly embedded: each embedded definition mirrors one
function of the repository (`src/src/cut_manager.py`, `src/src/event_tap.py`,
`src/src/app.py`).  External effects (the Finder scripting bridge, the file
system, the clipboard, the Kimi API, CoreGraphics) are passed in as explicit
parameters or oracles, and the side effects a function performs are returned
as an explicit trace, in program order.
-/

namespace CommondX

/-! ## CutManager (`src/src/cut_manager.py`) -/

/-- State of `CutManager`: `cut_files` (initially `[]`) and `last_selection`
(initially Python `None`, hence an `Option`).  `cut_manager.py` lines 36-39. -/
structure CutState where
  cut_files : List String
  last_selection : Option (List String)
deriving DecidableEq

/-- Python truthiness test `not last` for the `last` argument of
`_is_same_selection`: `None` and the empty list are both falsy. -/
def selEmpty : Option (List String) → Bool
  | none => true
  | some l => l.isEmpty

/-- `CutManager._is_same_selection` (`cut_manager.py` lines 92-119):
empty/`None` selections are mutually equal; one empty and one not are
different; otherwise compare `set(current) == set(last)`. -/
def _is_same_selection (current : List String) (last : Option (List String)) : Bool :=
  if current.isEmpty && selEmpty last then true
  else if current.isEmpty || selEmpty last then false
  else decide (current.toFinset = (last.getD []).toFinset)

/-- `CutManager.cut` (`cut_manager.py` lines 121-194).  The Finder selection
query result is the `files` parameter and `Path(f).exists()` is the oracle
`ex`.  In program order: compute `is_same` against the previous
`last_selection`, overwrite `last_selection` with the raw (unfiltered)
selection, return `(False, False)` when the selection is empty, filter to the
paths that exist, return `(False, False)` when none remain, return
`(True, True)` without touching `cut_files` when the selection repeats, and
otherwise store the filtered selection in `cut_files` and return
`(True, False)`. -/
def cut (st : CutState) (files : List String) (ex : String → Bool) :
    (Bool × Bool) × CutState :=
  let is_same := _is_same_selection files st.last_selection
  let st' : CutState := { st with last_selection := some files }
  if files.isEmpty then ((false, false), st')
  else
    let valid := files.filter (fun f => ex f)
    if valid.isEmpty then ((false, false), st')
    else if is_same then ((true, true), st')
    else ((true, false), { st' with cut_files := valid })

/-- Calls `CutManager.paste` makes on the Finder scripting bridge:
`get_finder_current_folder` and the `move` AppleScript. -/
inductive BridgeCall where
  | queryTarget
  | move
deriving DecidableEq

/-- `CutManager.paste` (`cut_manager.py` lines 196-221).  `target` is the
result of `get_finder_current_folder` (`""` for a falsy result), `ex` is
`Path(target).exists()`, and `out` is the output of the `move` AppleScript.
Returns the `(success, message)` pair, the new state, and the bridge calls
made, in order. -/
def paste (st : CutState) (target : String) (ex : String → Bool) (out : String) :
    (Bool × String) × CutState × List BridgeCall :=
  if st.cut_files.isEmpty then ((false, "没有待移动文件"), st, [])
  else if target = "" || !(ex target) then
    ((false, "目标文件夹无效"), st, [BridgeCall.queryTarget])
  else if out = "OK" then
    let cnt := st.cut_files.length
    ((true, "已移动 " ++ toString cnt ++ " 个文件"),
      { st with cut_files := [] }, [BridgeCall.queryTarget, BridgeCall.move])
  else
    ((false, "移动失败: " ++ out), st, [BridgeCall.queryTarget, BridgeCall.move])

/-! ## EventTap (`src/src/event_tap.py`) -/

/-- Keycode of the X key (`event_tap.py` line 29). -/
def KEY_X : Nat := 7

/-- Keycode of the V key (`event_tap.py` line 29). -/
def KEY_V : Nat := 9

/-- Modelled from the spec: the "copy key" (⌘C) of §4.1/§4.2, keycode 8 on
macOS.  The source defines no copy keycode at all (`event_tap.py` defines only
`KEY_X, KEY_V = 7, 9`). -/
def KEY_C : Nat := 8

/-- The CoreGraphics key-down event type constant `kCGEventKeyDown`. -/
def kCGEventKeyDown : Nat := 10

/-- The parameter names accepted by `EventTap.__init__`
(`event_tap.py` line 46): `on_cut`, `on_paste`, `on_license_invalid`
(besides `self`). -/
def eventTapInitParams : List String :=
  ["on_cut", "on_paste", "on_license_invalid"]

/-- The keyword arguments passed to the `EventTap(...)` constructor call in
`CommondXApp.applicationDidFinishLaunching_` (`app.py` lines 55-60). -/
def appLaunchEventTapKwargs : List String :=
  ["on_cut", "on_paste", "on_copy", "on_license_invalid"]

/-- Python keyword-argument call semantics for a function without `**kwargs`:
the call raises `TypeError` ("unexpected keyword argument") iff some passed
keyword is not among the function's parameter names. -/
def kwargsRaiseTypeError (params kwargs : List String) : Bool :=
  kwargs.any (fun k => !(params.contains k))

/-- A key event as seen by `EventTap._callback`: the CoreGraphics event type,
the keycode, and whether the Cmd/Shift/Option modifier bits are set in the
event flags (`event_tap.py` lines 118-129). -/
structure KeyEvent where
  eventType : Nat
  keycode : Nat
  cmd : Bool
  shift : Bool
  opt : Bool
deriving DecidableEq

/-- Outcome of `EventTap._callback`: return the event unmodified (pass
through) or return `None` (consume it). -/
inductive CallbackResult where
  | passThrough
  | consumed
deriving DecidableEq

/-- A handler invocation performed by `EventTap._callback`. -/
inductive HandlerCall where
  | cutHandler
  | pasteHandler
  | licenseInvalidHandler
deriving DecidableEq

/-- `EventTap._callback` (`event_tap.py` lines 75-190), with the environment
passed explicitly: `finderActive` is `_is_finder_active()`, `licenseValid` is
`license_manager.is_valid()`, and `handlerReturns` is the boolean returned by
the invoked `on_cut`/`on_paste` handler.  In program order: pass through
non-key-down events; pass through keycodes other than `KEY_X`/`KEY_V`; pass
through unless Cmd is held without Shift/Option; pass through when Finder is
not frontmost; when the license is invalid, call `on_license_invalid` and
pass through; otherwise invoke `on_cut` (for X) or `on_paste` (for V) and
consume the event iff the handler returned `True`.  Returns the callback
result and the handler calls made. -/
def _callback (ev : KeyEvent) (finderActive licenseValid handlerReturns : Bool) :
    CallbackResult × List HandlerCall :=
  if ev.eventType ≠ kCGEventKeyDown then (CallbackResult.passThrough, [])
  else if ev.keycode ≠ KEY_X ∧ ev.keycode ≠ KEY_V then (CallbackResult.passThrough, [])
  else if !ev.cmd || ev.shift || ev.opt then (CallbackResult.passThrough, [])
  else if !finderActive then (CallbackResult.passThrough, [])
  else if !licenseValid then
    (CallbackResult.passThrough, [HandlerCall.licenseInvalidHandler])
  else
    let h := if ev.keycode = KEY_X then HandlerCall.cutHandler else HandlerCall.pasteHandler
    if handlerReturns then (CallbackResult.consumed, [h])
    else (CallbackResult.passThrough, [h])

/-- State of the `EventTap` hook.  `running` and `tapExists` mirror the
`self.running` and `self.tap is not None` fields of `event_tap.py`.
`tapDead` is modelled from the spec (§4.1, §3 InterceptorHandle): the OS has
permanently disabled the tap (a timeout-disable), so that re-enabling the
existing handle is a silent no-op; the flag is cleared only by creating a
fresh tap.  `tapEnabled` is the enabled flag last asserted via
`CGEventTapEnable`. -/
structure TapState where
  running : Bool
  tapExists : Bool
  tapDead : Bool
  tapEnabled : Bool
deriving DecidableEq

/-- Modelled from the spec: `CGEventTapEnable(tap, True)` on an existing tap
raises no exception and asserts the enabled flag, but does not revive a tap
the OS permanently disabled (`tapDead` persists) — re-enabling a dead handle
is a silent no-op (spec §4.1). -/
def cgEventTapEnableTrue (st : TapState) : TapState :=
  { st with tapEnabled := true }

/-- A hook is live and functioning only if the tap object exists, is not
permanently disabled by the OS, and is enabled. -/
def functioning (st : TapState) : Bool :=
  st.tapExists && !st.tapDead && st.tapEnabled

/-- `EventTap._recreate_tap` (`event_tap.py` lines 252-284): drop the old tap
object, create a fresh one (`createOk` tells whether `CGEventTapCreate`
succeeds); on failure set `running = False` and return `False`, on success
enable the fresh tap and return `True`.  The third component records that the
old tap object was destroyed and a recreation was attempted. -/
def _recreate_tap (st : TapState) (createOk : Bool) : Bool × TapState × Bool :=
  if createOk then
    (true, { running := st.running, tapExists := true, tapDead := false, tapEnabled := true }, true)
  else
    (false, { running := false, tapExists := false, tapDead := false, tapEnabled := false }, true)

/-- `EventTap.ensure_enabled` (`event_tap.py` lines 225-250), with the
environment passed explicitly: `enableRaises` tells whether the
`CGEventTapEnable` call raises an exception, `createOk` whether a recreation
would succeed.  In program order: return `False` when not running; recreate
when the tap object does not exist; otherwise call `CGEventTapEnable(tap,
True)` and return `True`, falling back to recreation only when that call
raises.  The third component of the result records whether the tap object was
destroyed and recreated. -/
def ensure_enabled (st : TapState) (enableRaises createOk : Bool) :
    Bool × TapState × Bool :=
  if !st.running then (false, st, false)
  else if !st.tapExists then _recreate_tap st createOk
  else if enableRaises then _recreate_tap st createOk
  else (true, cgEventTapEnableTrue st, false)

/-! ## Orchestrator (`src/src/app.py`) -/

/-- The externally visible actions `CommondXApp.on_cut` performs, in program
order.  `scheduleRecovery` stands for scheduling any deferred recovery
attempt (such as a timer invoking `_restoreEventTap_`), and
`ensureEnabledCall` for a direct `event_tap.ensure_enabled()` call; the
constructors exist so their absence from a trace can be stated. -/
inductive AppAction where
  | callCut
  | showMenu (files : List String)
  | scheduleRecovery
  | ensureEnabledCall
deriving DecidableEq

/-- `CommondXApp.on_cut` (`app.py` lines 162-222), with the Finder selection
and existence oracle passed through to `CutManager.cut`.  In program order:
call `cut_manager.cut()`; on failure return `False`; when the selection
repeated, read `cut_manager.last_selection`, skip the menu when it is empty,
otherwise show the smart-operations menu and return `True`; otherwise (plain
cut) return `True`.  Returns the boolean handed back to the event tap, the
new cut state, and the trace of actions performed. -/
def app_on_cut (st : CutState) (files : List String) (ex : String → Bool) :
    Bool × CutState × List AppAction :=
  let r := cut st files ex
  let st' := r.2
  if !r.1.1 then (false, st', [AppAction.callCut])
  else if r.1.2 then
    match st'.last_selection with
    | none => (true, st', [AppAction.callCut])
    | some fs =>
      if fs.isEmpty then (true, st', [AppAction.callCut])
      else (true, st', [AppAction.callCut, AppAction.showMenu fs])
  else (true, st', [AppAction.callCut])

/-! ## Clipboard change detector (`CommondXApp.on_copy`, `app.py` lines 239-449)

Python `None` and the empty string are both falsy and are treated identically
by every truthiness test in `on_copy`, so optional strings are embedded as
`String` with `""` for `None`.  `time.time()` values are embedded as
rationals; `self.last_copy_time = 0` / `self.last_triggered_time = 0` encode
"never", guarded in the source by `if self.last_copy_time > 0` (else the time
difference is `float('inf')`, which fails every `< bound` comparison). -/

/-- Clipboard state of `CommondXApp` (`app.py` lines 38-43 and 36):
`last_clipboard_content`, `last_copy_time`, `last_triggered_content`,
`last_triggered_time`, and whether `_current_alert` is not `None` (a result
popup is currently displayed). -/
structure ClipState where
  lastContent : String
  lastCopyTime : ℚ
  lastTriggeredContent : String
  lastTriggeredTime : ℚ
  currentAlert : Bool
deriving DecidableEq

/-- `self.COPY_INTERVAL = 5.0` (`app.py` line 40). -/
def COPY_INTERVAL : ℚ := 5

/-- `self.TRIGGER_COOLDOWN = 3.0` (`app.py` line 43). -/
def TRIGGER_COOLDOWN : ℚ := 3

/-- Modelled from the spec: `MIN_INTERVAL = 0.1s` (§8); the source defines no
lower bound on the interval between two copies. -/
def MIN_INTERVAL : ℚ := 1 / 10

/-- `content_equal` (`app.py` lines 329-331): `False` unless both the current
and the previous content are truthy, otherwise exact string equality. -/
abbrev content_equal (st : ClipState) (content : String) : Prop :=
  content ≠ "" ∧ st.lastContent ≠ "" ∧ content = st.lastContent

/-- `time_diff < self.COPY_INTERVAL` (`app.py` lines 319 and 359):
`time_diff = now - last_copy_time` when `last_copy_time > 0`, else infinite
(and then never below the bound). -/
abbrev time_diff_ok (st : ClipState) (now : ℚ) : Prop :=
  0 < st.lastCopyTime ∧ now - st.lastCopyTime < COPY_INTERVAL

/-- `in_cooldown` (`app.py` lines 353-355): the current content is truthy,
equals the last triggered content (itself truthy), and the time since the
last trigger (infinite when `last_triggered_time ≤ 0`) is below
`TRIGGER_COOLDOWN`. -/
abbrev in_cooldown (st : ClipState) (content : String) (now : ℚ) : Prop :=
  (content ≠ "" ∧ st.lastTriggeredContent ≠ "" ∧ content = st.lastTriggeredContent)
    ∧ 0 < st.lastTriggeredTime ∧ now - st.lastTriggeredTime < TRIGGER_COOLDOWN

/-- `should_trigger` (`app.py` lines 357-360): the content read from the
clipboard is truthy, equals the previous content, the time since the previous
copy is below `COPY_INTERVAL`, and the cooldown condition does not hold. -/
abbrev should_trigger (st : ClipState) (content : String) (now : ℚ) : Prop :=
  content ≠ "" ∧ content_equal st content ∧ time_diff_ok st now
    ∧ ¬ in_cooldown st content now

/-- The externally visible actions `on_copy` performs after the trigger
decision, in program order (`app.py` lines 388-442): skip because a popup is
already displayed (line 392, early `return`), record the trigger content and
time (lines 395-396), invoke the Kimi processor (line 403), show the result
popup / send the failure notification, and the final unconditional update of
`last_clipboard_content` / `last_copy_time` (lines 441-442). -/
inductive CopyAction where
  | skipPopup
  | recordTrigger (content : String) (time : ℚ)
  | invokeProcessor (content : String)
  | showPopup
  | notifyFailure
  | updateLast (content : String) (time : ℚ)
deriving DecidableEq

/-- `CommondXApp.on_copy` (`app.py` lines 239-449) after the clipboard read
loop: `content` is the content finally read (`""` when nothing could be
read), `now` is `time.time()`, and `kimiOk` tells whether the Kimi API call
succeeds.  When the trigger condition holds but a popup is already displayed,
the handler returns early (line 392) touching nothing.  Otherwise on trigger
it records `last_triggered_content`/`last_triggered_time` *before* invoking
the processor, then shows the popup (success — `_current_alert` is set and
cleared again) or sends a failure notification, and finally, trigger or not,
updates `last_clipboard_content`/`last_copy_time` (lines 441-442).  Returns
the new state, the action trace in program order, and whether the processor
was invoked. -/
def on_copy (st : ClipState) (content : String) (now : ℚ) (kimiOk : Bool) :
    ClipState × List CopyAction × Bool :=
  if should_trigger st content now then
    if st.currentAlert then (st, [CopyAction.skipPopup], false)
    else
      let st₁ := { st with lastTriggeredContent := content, lastTriggeredTime := now }
      let st₂ := { st₁ with lastContent := content, lastCopyTime := now, currentAlert := false }
      (st₂,
        [CopyAction.recordTrigger content now, CopyAction.invokeProcessor content,
          if kimiOk then CopyAction.showPopup else CopyAction.notifyFailure,
          CopyAction.updateLast content now],
        true)
  else
    ({ st with lastContent := content, lastCopyTime := now },
      [CopyAction.updateLast content now], false)

/-- Fold `on_copy` over a sequence of copy events `(content, time)`, all with
the same Kimi outcome; returns the final state and the per-event "processor
invoked" flags. -/
def runCopies (st : ClipState) (events : List (String × ℚ)) (kimiOk : Bool) :
    ClipState × List Bool :=
  match events with
  | [] => (st, [])
  | (c, t) :: rest =>
    let r := on_copy st c t kimiOk
    let rr := runCopies r.1 rest kimiOk
    (rr.1, r.2.2 :: rr.2)

/-! ## Helper lemmas -/

/-- `cut` overwrites `last_selection` with the raw queried selection in every
branch. -/
theorem cut_sets_last_selection (st : CutState) (files : List String) (ex : String → Bool) :
    (cut st files ex).2.last_selection = some files := by
  unfold cut
  by_cases h1 : files.isEmpty <;>
    by_cases h2 : (files.filter (fun f => ex f)).isEmpty <;>
      by_cases h3 : _is_same_selection files st.last_selection <;>
        simp [h1, h2, h3]

/-- Characterization of the repeated-selection branch of `cut`. -/
theorem cut_repeat_branch (st : CutState) (files : List String) (ex : String → Bool)
    (h1 : files.isEmpty = false)
    (h2 : (files.filter (fun f => ex f)).isEmpty = false)
    (h3 : _is_same_selection files st.last_selection = true) :
    cut st files ex = ((true, true), { st with last_selection := some files }) := by
  simp [cut, h1, h2, h3]

/-! ## Claims -/

/-- Claim C1: application startup always fails to wire the copy feature.
`applicationDidFinishLaunching_` calls the `EventTap` constructor with the
keyword arguments `on_cut`, `on_paste`, `on_copy`, `on_license_invalid`, but
`EventTap.__init__` accepts only `on_cut`, `on_paste`, `on_license_invalid`,
so the call raises `TypeError` on every launch and no copy handler is ever
registered with the event tap. -/
theorem c1_startup_raises_typeerror :
    kwargsRaiseTypeError eventTapInitParams appLaunchEventTapKwargs = true
    ∧ appLaunchEventTapKwargs.contains "on_copy" = true
    ∧ eventTapInitParams.contains "on_copy" = false := by decide

/-- Claim C3, counterexample: when a path is selected but does not exist on
disk, `cut` returns `(false, false)` but stores the raw nonexistent selection
in `last_selection` instead of resetting it to empty as the claim states. -/
theorem c3_counterexample :
    (cut ⟨[], none⟩ ["/missing"] (fun _ => false)).1 = (false, false)
    ∧ (cut ⟨[], none⟩ ["/missing"] (fun _ => false)).2.last_selection = some ["/missing"]
    ∧ some ["/missing"] ≠ some ([] : List String) := by decide

/-- Claim C3, amended: after every call, `last_selection` equals the raw
queried selection, unfiltered by disk existence (empty when the query failed
or returned empty); the call returns `(false, false)` whenever no selected
path exists on disk (in particular when the selection is empty), but in the
nonexistent-paths case `last_selection` still holds the raw selection rather
than being reset. -/
theorem c3_last_selection_unfiltered (st : CutState) (files : List String) (ex : String → Bool) :
    (cut st files ex).2.last_selection = some files
    ∧ ((files.filter (fun f => ex f)).isEmpty = true → (cut st files ex).1 = (false, false)) := by
  refine ⟨cut_sets_last_selection st files ex, fun h => ?_⟩
  unfold cut
  by_cases h1 : files.isEmpty <;> simp [h1, h]

/-- Witness for C3 at a concrete input: an empty Finder query resets
`last_selection` to the empty selection and the call fails. -/
theorem c3_witness :
    (cut ⟨["/keep"], some ["/old"]⟩ [] (fun _ => true)).2.last_selection = some []
    ∧ (cut ⟨["/keep"], some ["/old"]⟩ [] (fun _ => true)).1 = (false, false) :=
  ⟨(c3_last_selection_unfiltered ⟨["/keep"], some ["/old"]⟩ [] (fun _ => true)).1,
    (c3_last_selection_unfiltered ⟨["/keep"], some ["/old"]⟩ [] (fun _ => true)).2 (by decide)⟩

/-- Claim C8: for every non-empty list of paths that all exist on disk and
every reordering/duplication of it (a list with the same set of elements),
calling `cut` with the list and then with the permuted list returns
`(true, true)` on the second call and leaves `cut_files` unchanged. -/
theorem c8_repeated_selection_cut (st : CutState) (L P : List String) (ex : String → Bool)
    (hL : L ≠ []) (hex : ∀ p ∈ L, ex p = true) (hmem : ∀ x, x ∈ P ↔ x ∈ L) :
    (cut (cut st L ex).2 P ex).1 = (true, true)
    ∧ (cut (cut st L ex).2 P ex).2.cut_files = (cut st L ex).2.cut_files := by
  obtain ⟨a, haL⟩ := List.exists_mem_of_ne_nil L hL
  have haP : a ∈ P := (hmem a).2 haL
  have hP : P ≠ [] := List.ne_nil_of_mem haP
  have hPe : P.isEmpty = false := by simp [List.isEmpty_iff, hP]
  have hLe : L.isEmpty = false := by simp [List.isEmpty_iff, hL]
  have hfilter : (P.filter (fun f => ex f)).isEmpty = false := by
    have : a ∈ P.filter (fun f => ex f) :=
      List.mem_filter.2 ⟨haP, hex a ((hmem a).1 haP)⟩
    simp [List.isEmpty_iff, List.ne_nil_of_mem this]
  have hsame : _is_same_selection P ((cut st L ex).2.last_selection) = true := by
    rw [cut_sets_last_selection]
    unfold _is_same_selection selEmpty
    simp [hPe, hLe]
    exact Finset.ext fun x => by simp [List.mem_toFinset, hmem x]
  rw [cut_repeat_branch _ P ex hPe hfilter hsame]
  exact ⟨rfl, rfl⟩

/-- Witness for C8 at a concrete input: selection `["a", "b"]` followed by
the duplicated reordering `["b", "a", "a"]`. -/
theorem c8_witness :
    (cut (cut ⟨[], none⟩ ["a", "b"] (fun _ => true)).2 ["b", "a", "a"] (fun _ => true)).1
      = (true, true)
    ∧ (cut (cut ⟨[], none⟩ ["a", "b"] (fun _ => true)).2 ["b", "a", "a"] (fun _ => true)).2.cut_files
      = (cut ⟨[], none⟩ ["a", "b"] (fun _ => true)).2.cut_files :=
  c8_repeated_selection_cut ⟨[], none⟩ ["a", "b"] ["b", "a", "a"] (fun _ => true)
    (by decide) (by decide) (fun x => by simp [List.mem_cons]; tauto)

/-- Claim C9: `paste` with empty `cut_files` fails with "没有待移动文件"
without any bridge call; when the move script answers `"OK"` it clears
`cut_files`, leaves `last_selection` untouched and succeeds; for any other
answer it fails with a message carrying the bridge's error text and leaves
the state unchanged. -/
theorem c9_paste_behavior (st : CutState) (target : String) (ex : String → Bool) (out : String) :
    (st.cut_files = [] → paste st target ex out = ((false, "没有待移动文件"), st, []))
    ∧ (st.cut_files ≠ [] → target ≠ "" → ex target = true → out = "OK" →
        (paste st target ex out).1.1 = true
        ∧ (paste st target ex out).2.1.cut_files = []
        ∧ (paste st target ex out).2.1.last_selection = st.last_selection)
    ∧ (st.cut_files ≠ [] → target ≠ "" → ex target = true → out ≠ "OK" →
        (paste st target ex out).1 = (false, "移动失败: " ++ out)
        ∧ (paste st target ex out).2.1 = st) := by
  refine ⟨fun h => ?_, fun h1 h2 h3 h4 => ?_, fun h1 h2 h3 h4 => ?_⟩
  · simp [paste, h]
  · have he : st.cut_files.isEmpty = false := by simp [List.isEmpty_iff, h1]
    simp [paste, he, h2, h3, h4]
  · have he : st.cut_files.isEmpty = false := by simp [List.isEmpty_iff, h1]
    simp [paste, he, h2, h3, h4]

/-- Witness for C9 at concrete inputs: empty `cut_files`, an `"OK"` answer,
and an error answer. -/
theorem c9_witness :
    paste ⟨[], none⟩ "/t" (fun _ => true) "OK" = ((false, "没有待移动文件"), ⟨[], none⟩, [])
    ∧ ((paste ⟨["/a"], some ["/s"]⟩ "/t" (fun _ => true) "OK").1.1 = true
        ∧ (paste ⟨["/a"], some ["/s"]⟩ "/t" (fun _ => true) "OK").2.1.cut_files = []
        ∧ (paste ⟨["/a"], some ["/s"]⟩ "/t" (fun _ => true) "OK").2.1.last_selection
            = some ["/s"])
    ∧ ((paste ⟨["/a"], some ["/s"]⟩ "/t" (fun _ => true) "Error: 1").1
          = (false, "移动失败: " ++ "Error: 1")
        ∧ (paste ⟨["/a"], some ["/s"]⟩ "/t" (fun _ => true) "Error: 1").2.1
          = ⟨["/a"], some ["/s"]⟩) :=
  ⟨(c9_paste_behavior ⟨[], none⟩ "/t" (fun _ => true) "OK").1 rfl,
    (c9_paste_behavior ⟨["/a"], some ["/s"]⟩ "/t" (fun _ => true) "OK").2.1
      (by decide) (by decide) rfl rfl,
    (c9_paste_behavior ⟨["/a"], some ["/s"]⟩ "/t" (fun _ => true) "Error: 1").2.2
      (by decide) (by decide) rfl (by decide)⟩

/-- Claim C4: evaluation at the failing input.  When `cut` signals a repeated
selection, `on_cut` shows the smart-operations menu (a modal interaction) and
returns immediately: its action trace contains no scheduling of a recovery
attempt and no `ensure_enabled` call, contrary to the claimed capped burst of
recovery attempts after every modal interaction. -/
theorem c4_no_recovery_after_menu :
    app_on_cut ⟨[], some ["/a"]⟩ ["/a"] (fun _ => true)
      = (true, ⟨[], some ["/a"]⟩, [AppAction.callCut, AppAction.showMenu ["/a"]])
    ∧ AppAction.scheduleRecovery ∉ (app_on_cut ⟨[], some ["/a"]⟩ ["/a"] (fun _ => true)).2.2
    ∧ AppAction.ensureEnabledCall ∉ (app_on_cut ⟨[], some ["/a"]⟩ ["/a"] (fun _ => true)).2.2 := by
  decide

/-- Claim C5, counterexample: with the tap object present but permanently
disabled by the OS (a timeout-disable), `ensure_enabled` merely re-asserts
the enabled flag, reports success, and does not destroy/recreate the tap —
the hook is still not functioning although success was reported. -/
theorem c5_counterexample :
    ensure_enabled ⟨true, true, true, false⟩ false true
      = (true, ⟨true, true, true, true⟩, false)
    ∧ functioning (ensure_enabled ⟨true, true, true, false⟩ false true).2.1 = false := by
  decide

/-- Claim C5, amended: `ensure_enabled` never inspects whether the OS has
permanently disabled the existing tap.  When running and the tap object
exists and `CGEventTapEnable` raises no exception, it only re-asserts the
enabled flag and reports success without recreating (so after a
timeout-disable it reports success while the hook stays dead); it destroys
and recreates the tap object only when the object is missing or the
re-enable call raises; when not running it fails immediately. -/
theorem c5_ensure_enabled_cases (st : TapState) (er createOk : Bool) :
    (st.running = true → st.tapExists = true → er = false →
        ensure_enabled st er createOk = (true, { st with tapEnabled := true }, false))
    ∧ (st.running = true → st.tapExists = false →
        ensure_enabled st er createOk = _recreate_tap st createOk)
    ∧ (st.running = true → st.tapExists = true → er = true →
        ensure_enabled st er createOk = _recreate_tap st createOk)
    ∧ (st.running = false → ensure_enabled st er createOk = (false, st, false)) := by
  refine ⟨fun h1 h2 h3 => ?_, fun h1 h2 => ?_, fun h1 h2 h3 => ?_, fun h1 => ?_⟩
  · simp [ensure_enabled, cgEventTapEnableTrue, h1, h2, h3]
  · simp [ensure_enabled, h1, h2]
  · simp [ensure_enabled, h1, h2, h3]
  · simp [ensure_enabled, h1]

/-- Witness for C5 at a concrete input: a healthy running tap is re-enabled
in place, with no recreation. -/
theorem c5_witness :
    ensure_enabled ⟨true, true, false, false⟩ false true
      = (true, ⟨true, true, false, true⟩, false) :=
  (c5_ensure_enabled_cases ⟨true, true, false, false⟩ false true).1 rfl rfl rfl

/-- Claim C6: evaluation at the failing input.  A ⌘C key-down (keycode 8 with
Cmd held, Shift/Option absent) is passed through by `_callback` with no
handler invoked, whether or not Finder is frontmost — the copy key is not
observed at all, contrary to the claimed global copy observation.  For
comparison, ⌘X is handled (and consumed on handler success) when Finder is
frontmost and passed through otherwise, confirming the Finder gating of
cut/paste. -/
theorem c6_copy_key_unhandled :
    _callback ⟨kCGEventKeyDown, KEY_C, true, false, false⟩ true true true
      = (CallbackResult.passThrough, [])
    ∧ _callback ⟨kCGEventKeyDown, KEY_C, true, false, false⟩ false true true
      = (CallbackResult.passThrough, [])
    ∧ _callback ⟨kCGEventKeyDown, KEY_X, true, false, false⟩ true true true
      = (CallbackResult.consumed, [HandlerCall.cutHandler])
    ∧ _callback ⟨kCGEventKeyDown, KEY_X, true, false, false⟩ false true true
      = (CallbackResult.passThrough, []) := by
  decide

/-- Branch lemma for `on_copy`: trigger while a popup is displayed — early
return, nothing changes. -/
theorem on_copy_eq_skip (st : ClipState) (c : String) (now : ℚ) (k : Bool)
    (hs : should_trigger st c now) (ha : st.currentAlert = true) :
    on_copy st c now k = (st, [CopyAction.skipPopup], false) := by
  unfold on_copy
  rw [if_pos hs, ha]
  simp

/-- Branch lemma for `on_copy`: trigger with no popup displayed — record the
trigger, invoke the processor, update the copy record. -/
theorem on_copy_eq_trigger (st : ClipState) (c : String) (now : ℚ) (k : Bool)
    (hs : should_trigger st c now) (ha : st.currentAlert = false) :
    on_copy st c now k
      = ({ lastContent := c, lastCopyTime := now, lastTriggeredContent := c,
            lastTriggeredTime := now, currentAlert := false },
          [CopyAction.recordTrigger c now, CopyAction.invokeProcessor c,
            if k then CopyAction.showPopup else CopyAction.notifyFailure,
            CopyAction.updateLast c now], true) := by
  unfold on_copy
  rw [if_pos hs, ha]
  simp

/-- Branch lemma for `on_copy`: no trigger — only the unconditional update of
the copy record happens. -/
theorem on_copy_eq_no_trigger (st : ClipState) (c : String) (now : ℚ) (k : Bool)
    (hs : ¬ should_trigger st c now) :
    on_copy st c now k
      = ({ st with lastContent := c, lastCopyTime := now },
          [CopyAction.updateLast c now], false) := by
  unfold on_copy
  rw [if_neg hs]

/-- Claim C2, counterexample: the detector triggers on a single-character
content with a time difference of `1/20 s`, i.e. below the spec's
`MIN_INTERVAL = 0.1 s` strict lower bound and below any minimum length of at
least two characters — the code requires only non-emptiness and enforces no
lower bound on the interval. -/
theorem c2_counterexample :
    should_trigger ⟨"a", 10, "", 0, false⟩ "a" (201 / 20)
    ∧ String.length "a" = 1
    ∧ (201 : ℚ) / 20 - 10 < MIN_INTERVAL := by
  refine ⟨⟨by decide, ⟨by decide, by decide, rfl⟩,
      ⟨by norm_num, by norm_num [COPY_INTERVAL]⟩, ?_⟩, by decide, by norm_num [MIN_INTERVAL]⟩
  rintro ⟨⟨-, h, -⟩, -⟩
  exact h rfl

/-- Claim C2, amended: the detector triggers iff the content is non-empty
(with no further minimum length), the current and previous contents are
exactly equal (which in particular implies equality after whitespace
trimming), a previous copy time is recorded and the time since it is strictly
below `COPY_INTERVAL = 5 s` (no lower bound), and the cooldown condition
(same content as the last trigger, less than `TRIGGER_COOLDOWN = 3 s` ago)
does not hold. -/
theorem c2_trigger_characterization (st : ClipState) (content : String) (now : ℚ) :
    (should_trigger st content now ↔
      (content ≠ "" ∧ content = st.lastContent
        ∧ 0 < st.lastCopyTime ∧ now - st.lastCopyTime < 5
        ∧ ¬(st.lastTriggeredContent ≠ "" ∧ content = st.lastTriggeredContent
            ∧ 0 < st.lastTriggeredTime ∧ now - st.lastTriggeredTime < 3)))
    ∧ (should_trigger st content now → content.trim = st.lastContent.trim) := by
  constructor
  · constructor
    · rintro ⟨h1, ⟨-, -, heq⟩, htime, hcool⟩
      refine ⟨h1, heq, htime.1, by simpa [COPY_INTERVAL] using htime.2, ?_⟩
      rintro ⟨ht1, ht2, ht3, ht4⟩
      exact hcool ⟨⟨h1, ht1, ht2⟩, ht3, by simpa [TRIGGER_COOLDOWN] using ht4⟩
    · rintro ⟨h1, heq, ht, hlt, hcool⟩
      refine ⟨h1, ⟨h1, heq ▸ h1, heq⟩, ⟨ht, by simpa [COPY_INTERVAL] using hlt⟩, ?_⟩
      rintro ⟨⟨-, ht1, ht2⟩, ht3, ht4⟩
      exact hcool ⟨ht1, ht2, ht3, by simpa [TRIGGER_COOLDOWN] using ht4⟩
  · rintro ⟨-, ⟨-, -, heq⟩, -, -⟩
    rw [heq]

/-- Witness for C2 at a concrete input: two identical copies of `"hello"`
one second apart, no prior trigger. -/
theorem c2_witness :
    should_trigger ⟨"hello", 100, "", 0, false⟩ "hello" 101
    ∧ ("hello" : String).trim = (⟨"hello", 100, "", 0, false⟩ : ClipState).lastContent.trim := by
  have h := c2_trigger_characterization ⟨"hello", 100, "", 0, false⟩ "hello" 101
  have hs : should_trigger ⟨"hello", 100, "", 0, false⟩ "hello" 101 :=
    h.1.mpr ⟨by decide, rfl, by norm_num, by norm_num, by rintro ⟨ht, -⟩; exact ht rfl⟩
  exact ⟨hs, h.2 hs⟩

/-- Claim C7, counterexample: when the trigger condition holds while a result
popup is already displayed, `on_copy` returns early and leaves
`last_copy_time` (and `last_clipboard_content`) unchanged instead of updating
them to the values of this copy event. -/
theorem c7_counterexample :
    (on_copy ⟨"x", 100, "", 0, true⟩ "x" 101 true).1.lastCopyTime = 100
    ∧ (100 : ℚ) ≠ 101 := by
  have hs : should_trigger ⟨"x", 100, "", 0, true⟩ "x" 101 :=
    ⟨by decide, ⟨by decide, by decide, rfl⟩, ⟨by norm_num, by norm_num [COPY_INTERVAL]⟩,
      by rintro ⟨⟨-, h, -⟩, -⟩; exact h rfl⟩
  refine ⟨?_, by norm_num⟩
  rw [on_copy_eq_skip _ _ _ _ hs rfl]

/-- Claim C7, amended: after every observed copy event,
`last_clipboard_content` and `last_copy_time` are updated to the content just
read and the event time — except when the trigger condition holds while a
result popup is already displayed, in which case the handler returns early
and the whole clipboard state is left unchanged. -/
theorem c7_update_behavior (st : ClipState) (content : String) (now : ℚ) (kimiOk : Bool) :
    (¬(should_trigger st content now ∧ st.currentAlert = true) →
        (on_copy st content now kimiOk).1.lastContent = content
        ∧ (on_copy st content now kimiOk).1.lastCopyTime = now)
    ∧ (should_trigger st content now → st.currentAlert = true →
        (on_copy st content now kimiOk).1 = st) := by
  constructor
  · intro h
    by_cases hs : should_trigger st content now
    · have ha : st.currentAlert = false := by
        cases hA : st.currentAlert
        · rfl
        · exact absurd ⟨hs, hA⟩ h
      rw [on_copy_eq_trigger st content now kimiOk hs ha]
      exact ⟨rfl, rfl⟩
    · rw [on_copy_eq_no_trigger st content now kimiOk hs]
      exact ⟨rfl, rfl⟩
  · intro hs hA
    rw [on_copy_eq_skip st content now kimiOk hs hA]

/-- Witness for C7 at a concrete input: a first copy (no trigger, no popup)
updates both fields. -/
theorem c7_witness :
    (on_copy ⟨"", 0, "", 0, false⟩ "hi" 100 true).1.lastContent = "hi"
    ∧ (on_copy ⟨"", 0, "", 0, false⟩ "hi" 100 true).1.lastCopyTime = 100 :=
  (c7_update_behavior ⟨"", 0, "", 0, false⟩ "hi" 100 true).1 (by simp)

/-- Claim C10: on a trigger (no popup displayed), the action trace records
`last_triggered_content`/`last_triggered_time` strictly before invoking the
external processor; and with `COPY_INTERVAL = 5 s`, `TRIGGER_COOLDOWN = 3 s`,
copies of `"hello"` at times 100, 101, 103, 105 invoke the processor exactly
at 101 (second copy, 1 s apart) and 105 (4 s after the second copy), the copy
at 103 (within 3 s of the trigger) being suppressed by the cooldown. -/
theorem c10_trigger_protocol :
    (∀ (st : ClipState) (content : String) (now : ℚ) (kimiOk : Bool),
        should_trigger st content now → st.currentAlert = false →
        (on_copy st content now kimiOk).2.1
          = [CopyAction.recordTrigger content now, CopyAction.invokeProcessor content,
              if kimiOk then CopyAction.showPopup else CopyAction.notifyFailure,
              CopyAction.updateLast content now])
    ∧ (runCopies ⟨"", 0, "", 0, false⟩
          [("hello", 100), ("hello", 101), ("hello", 103), ("hello", 105)] true).2
        = [false, true, false, true] := by
  constructor
  · intro st content now kimiOk hs ha
    rw [on_copy_eq_trigger st content now kimiOk hs ha]
  · have h1 : ¬ should_trigger ⟨"", 0, "", 0, false⟩ "hello" 100 := by
      rintro ⟨-, ⟨-, h, -⟩, -, -⟩
      exact h rfl
    have h2 : should_trigger ⟨"hello", 100, "", 0, false⟩ "hello" 101 :=
      ⟨by decide, ⟨by decide, by decide, rfl⟩, ⟨by norm_num, by norm_num [COPY_INTERVAL]⟩,
        by rintro ⟨⟨-, h, -⟩, -⟩; exact h rfl⟩
    have h3 : ¬ should_trigger ⟨"hello", 101, "hello", 101, false⟩ "hello" 103 := by
      rintro ⟨-, -, -, hcool⟩
      exact hcool ⟨⟨by decide, by decide, rfl⟩, by norm_num, by norm_num [TRIGGER_COOLDOWN]⟩
    have h4 : should_trigger ⟨"hello", 103, "hello", 101, false⟩ "hello" 105 := by
      refine ⟨by decide, ⟨by decide, by decide, rfl⟩,
        ⟨by norm_num, by norm_num [COPY_INTERVAL]⟩, ?_⟩
      rintro ⟨-, -, ht⟩
      norm_num [TRIGGER_COOLDOWN] at ht
    have e1 : on_copy ⟨"", 0, "", 0, false⟩ "hello" 100 true
        = (⟨"hello", 100, "", 0, false⟩, [CopyAction.updateLast "hello" 100], false) := by
      rw [on_copy_eq_no_trigger _ _ _ _ h1]
    have e2 : on_copy ⟨"hello", 100, "", 0, false⟩ "hello" 101 true
        = (⟨"hello", 101, "hello", 101, false⟩,
            [CopyAction.recordTrigger "hello" 101, CopyAction.invokeProcessor "hello",
              CopyAction.showPopup, CopyAction.updateLast "hello" 101], true) := by
      rw [on_copy_eq_trigger _ _ _ _ h2 rfl]
      rfl
    have e3 : on_copy ⟨"hello", 101, "hello", 101, false⟩ "hello" 103 true
        = (⟨"hello", 103, "hello", 101, false⟩, [CopyAction.updateLast "hello" 103], false) := by
      rw [on_copy_eq_no_trigger _ _ _ _ h3]
    have e4 : on_copy ⟨"hello", 103, "hello", 101, false⟩ "hello" 105 true
        = (⟨"hello", 105, "hello", 105, false⟩,
            [CopyAction.recordTrigger "hello" 105, CopyAction.invokeProcessor "hello",
              CopyAction.showPopup, CopyAction.updateLast "hello" 105], true) := by
      rw [on_copy_eq_trigger _ _ _ _ h4 rfl]
      rfl
    simp only [runCopies, e1, e2, e3, e4]

/-- Witness for C10 at a concrete input: a triggering copy with the popup not
displayed records the trigger before invoking the processor. -/
theorem c10_witness :
    (on_copy ⟨"hi", 100, "", 0, false⟩ "hi" 101 true).2.1
      = [CopyAction.recordTrigger "hi" 101, CopyAction.invokeProcessor "hi",
          CopyAction.showPopup, CopyAction.updateLast "hi" 101] := by
  have h := c10_trigger_protocol.1 ⟨"hi", 100, "", 0, false⟩ "hi" 101 true
    ⟨by decide, ⟨by decide, by decide, rfl⟩, ⟨by norm_num, by norm_num [COPY_INTERVAL]⟩,
      by rintro ⟨⟨-, hc, -⟩, -⟩; exact hc rfl⟩ rfl
  simpa using h

end CommondX
